import Mathlib

/-
Verification of the form-state coordination engine of react-declare-form.

The development shallowly embeds the reducers and hook-level operations of
src/use-state.ts, src/use-required.ts, src/use-error.ts, src/use-loading.ts
and the event assembly of the Form component (onButtonClick). JavaScript
values are modelled by an inductive type carrying the truthiness test that
the source relies on; JavaScript objects used as string-keyed dictionaries
are modelled extensionally as functions from keys to optional values, with
an absent key represented by none (the source never stores undefined under
a present key, because every write is guarded by a truthiness check).
-/

namespace ReactDeclareForm

/-- JSValue models the JavaScript values the form stores: undefined, null,
booleans, numbers and strings. The source treats stored values as opaque
except for truthiness tests. -/
inductive JSValue where
  | undef
  | null
  | boolean (b : Bool)
  | num (n : Int)
  | str (s : String)
deriving DecidableEq, Repr

/-- Truthiness of a JavaScript value, as used by the double-negation guards
in the source (for example the if statements of setFormState). -/
def truthy : JSValue → Bool
  | .undef => false
  | .null => false
  | .boolean b => b
  | .num n => decide (n ≠ 0)
  | .str s => decide (s ≠ "")

abbrev StateKey := String

/-- A string-keyed dictionary of JavaScript values, modelled extensionally:
none means the key is absent from the object. -/
abbrev StateMap := StateKey → Option JSValue

def emptyMap : StateMap := fun _ => none

/-- Object spread with a single computed key, as in the reducer cases of
use-state.ts: all previous entries are kept and the given key is bound. -/
def mapSet (m : StateMap) (k : StateKey) (v : JSValue) : StateMap :=
  fun j => if j = k then some v else m j

/-- Rebuilding a dictionary from the keys of m with one key filtered out.
This is the extensional content of the Object.keys(...).reduce loops of the
REMOVE_FORM_STATE and REMOVE_FORM_META reducer cases. -/
def removeKey (m : StateMap) (k : StateKey) : StateMap :=
  fun j => if j = k then none else m j

/-- FormState mirrors the reducer state record of use-state.ts. -/
@[ext] structure FormState where
  formState : StateMap
  displayState : StateMap
  formMeta : StateMap
  displayMeta : StateMap
  stateChanged : Bool

/-- Initial reducer state of useFormState: all four dictionaries empty and
stateChanged false. -/
def initialFormState : FormState :=
  { formState := emptyMap
    displayState := emptyMap
    formMeta := emptyMap
    displayMeta := emptyMap
    stateChanged := false }

/-- The six action shapes dispatched to the use-state.ts reducer. The value
payload is always present because every dispatch site guards with a
truthiness check before dispatching. -/
inductive ReducerAction where
  | setInitialStateA (stateKey : StateKey) (state : JSValue)
  | setInitialMetaA (stateKey : StateKey) (meta : JSValue)
  | setFormStateA (stateKey : StateKey) (state : JSValue)
  | setFormMetaA (stateKey : StateKey) (meta : JSValue)
  | removeFormStateA (stateKey : StateKey)
  | removeFormMetaA (stateKey : StateKey)

/-- The reducer of use-state.ts. In the two REMOVE cases the source rebuilds
both dictionaries by reducing over Object.keys of the display dictionary
into one shared accumulator object; extensionally both results equal the
display dictionary with the removed key filtered out, which is how they are
written here. -/
def reducer (state : FormState) (action : ReducerAction) : FormState :=
  match action with
  | .setInitialStateA k v =>
      { state with
        displayState := mapSet state.displayState k v
        stateChanged := false }
  | .setInitialMetaA k v =>
      { state with
        displayMeta := mapSet state.displayMeta k v
        stateChanged := false }
  | .setFormStateA k v =>
      { state with
        formState := mapSet state.formState k v
        displayState := mapSet state.displayState k v
        stateChanged := true }
  | .setFormMetaA k v =>
      { state with
        formMeta := mapSet state.formMeta k v
        displayMeta := mapSet state.displayMeta k v
        stateChanged := true }
  | .removeFormStateA k =>
      { state with
        formState := removeKey state.displayState k
        displayState := removeKey state.displayState k
        stateChanged := true }
  | .removeFormMetaA k =>
      { state with
        formMeta := removeKey state.displayMeta k
        displayMeta := removeKey state.displayMeta k
        stateChanged := true }

/-- setFormState as returned by useFormState: dispatches SET_FORM_STATE only
when the state argument is truthy, and independently SET_FORM_META only when
the meta argument is truthy. -/
def setFormState (s : FormState) (stateKey : StateKey) (state meta : JSValue) :
    FormState :=
  let s1 := if truthy state then reducer s (.setFormStateA stateKey state) else s
  if truthy meta then reducer s1 (.setFormMetaA stateKey meta) else s1

/-- removeFormState as returned by useFormState: dispatches REMOVE_FORM_STATE
followed by REMOVE_FORM_META, unconditionally. -/
def removeFormState (s : FormState) (stateKey : StateKey) : FormState :=
  reducer (reducer s (.removeFormStateA stateKey)) (.removeFormMetaA stateKey)

/-- The setter passed to the setInitialState callback of useFormState:
dispatches SET_INITIAL_STATE only when the state argument is truthy, and
SET_INITIAL_META only when the meta argument is truthy. -/
def seedInitialState (s : FormState) (stateKey : StateKey) (state meta : JSValue) :
    FormState :=
  let s1 := if truthy state then reducer s (.setInitialStateA stateKey state) else s
  if truthy meta then reducer s1 (.setInitialMetaA stateKey meta) else s1

/-- One externally triggered mutation of the state store: a user write, a
removal, or an initial-state seed. -/
inductive FormOp where
  | set (stateKey : StateKey) (state meta : JSValue)
  | remove (stateKey : StateKey)
  | seed (stateKey : StateKey) (state meta : JSValue)

def applyOp (s : FormState) (op : FormOp) : FormState :=
  match op with
  | .set k st me => setFormState s k st me
  | .remove k => removeFormState s k
  | .seed k st me => seedInitialState s k st me

/-- Runs a sequence of mutations from the initial reducer state. -/
def runOps (ops : List FormOp) : FormState :=
  ops.foldl applyOp initialFormState

def FormOp.isSeed : FormOp → Bool
  | .seed _ _ _ => true
  | _ => false

/-
The one-shot seeding gate. setInitialState of use-state.ts registers the
seeding callback inside an effect whose dependency list is the single value
formState.formState at the binding's stateKey. The effect fires on the first
render and afterwards exactly when that dependency differs from the value it
had at the previous render. SeedBinding records the dependency value observed
at the previous render (none before the first render).
-/

structure SeedBinding where
  lastDep : Option (Option JSValue)

/-- Whether the seeding effect fires at a render: always at the first render,
afterwards only when the dependency changed since the previous render. -/
def effectFires (b : SeedBinding) (dep : Option JSValue) : Bool :=
  match b.lastDep with
  | none => true
  | some d => decide (d ≠ dep)

/-- One render of a field binding whose initial-state projection yields the
given state and meta values: the seeding effect runs exactly when its
dependency, the committed form state at the binding's key, changed. -/
def renderSeed (s : FormState) (b : SeedBinding) (stateKey : StateKey)
    (state meta : JSValue) : FormState × SeedBinding :=
  if effectFires b (s.formState stateKey) then
    (seedInitialState s stateKey state meta, ⟨some (s.formState stateKey)⟩)
  else
    (s, ⟨some (s.formState stateKey)⟩)

/-
Error store, from use-error.ts. A component error payload is an opaque
string-keyed object; some JSValue.undef models a key that is present but
bound to undefined, which object spread preserves.
-/

abbrev ErrObj := String → Option JSValue

abbrev FormErrors := StateKey → Option ErrObj

def emptyErrObj : ErrObj := fun _ => none

def emptyFormErrors : FormErrors := fun _ => none

/-- The object stored by the FORM_ERRORS.ADD reducer case: a default record
with a displayError message built from the state key, spread-overridden by
every field of the caller-supplied error payload. -/
def mergedError (stateKey : StateKey) (error : ErrObj) : ErrObj :=
  fun f =>
    match error f with
    | some v => some v
    | none =>
        if f = "displayError" then some (.str (stateKey ++ " Error")) else none

/-- setFormError as returned by useFormError: dispatches FORM_ERRORS.ADD,
which stores the merged error object at the key. -/
def setFormError (errors : FormErrors) (stateKey : StateKey) (error : ErrObj) :
    FormErrors :=
  fun j => if j = stateKey then some (mergedError stateKey error) else errors j

/-- removeFormError as returned by useFormError: deletes the entry when
present, otherwise returns the state unchanged; extensionally the key is
absent afterwards in both cases. -/
def removeFormError (errors : FormErrors) (stateKey : StateKey) : FormErrors :=
  fun j => if j = stateKey then none else errors j

/-
Required registry, from use-required.ts. Registered handlers are kept in an
association list mirroring the insertion-ordered object of the source; the
ADD reducer case overwrites an existing entry in place and appends a new one.
-/

/-- A stored required handler: a display message and a predicate over the
component's current state and error. -/
structure RequiredHandler where
  displayMessage : String
  isRequired : JSValue → Option ErrObj → Bool

/-- The caller-supplied handler object, possibly missing either field; the
ADD reducer case spreads it over a pair of defaults. -/
structure RequiredHandlerInput where
  displayMessage : Option String
  isRequired : Option (JSValue → Option ErrObj → Bool)

def emptyRequiredInput : RequiredHandlerInput := ⟨none, none⟩

/-- The default isRequired predicate installed by the ADD reducer case: the
component is missing exactly when its current state is falsy. -/
def defaultIsRequired : JSValue → Option ErrObj → Bool :=
  fun state _ => !truthy state

/-- The handler stored by the ADD reducer case: defaults for isRequired and
displayMessage, overridden by any caller-supplied fields. -/
def mkHandler (stateKey : StateKey) (required : RequiredHandlerInput) :
    RequiredHandler :=
  { displayMessage :=
      required.displayMessage.getD (stateKey ++ " Missing and Required")
    isRequired := required.isRequired.getD defaultIsRequired }

abbrev RequiredHandlers := List (StateKey × RequiredHandler)

/-- Property access on the registry object: the handler stored under a key,
none when the key is absent. -/
def regLookup : RequiredHandlers → StateKey → Option RequiredHandler
  | [], _ => none
  | (a, h) :: t, k => if k = a then some h else regLookup t k

/-- The ADD case of the use-required.ts reducer: object spread with a
computed key, keeping insertion order for an existing key and appending a
fresh one. -/
def requiredAdd (state : RequiredHandlers) (stateKey : StateKey)
    (required : RequiredHandlerInput) : RequiredHandlers :=
  if (regLookup state stateKey).isSome then
    state.map (fun p => if p.1 = stateKey then (stateKey, mkHandler stateKey required) else p)
  else
    state ++ [(stateKey, mkHandler stateKey required)]

/-- isMissing as returned by useFormRequired: false for an unregistered key,
otherwise the handler's isRequired evaluated at the component's current
state and error, fetched freshly through the two accessor callbacks. -/
def isMissing (reg : RequiredHandlers) (getState : StateKey → JSValue)
    (getError : StateKey → Option ErrObj) (stateKey : StateKey) : Bool :=
  match regLookup reg stateKey with
  | some h => h.isRequired (getState stateKey) (getError stateKey)
  | none => false

/-- The evaluated entry getFormRequired produces for one registered key. -/
structure RequiredElementMessage where
  displayMessage : String
  isMissing : Bool
deriving DecidableEq

/-- getFormRequired as returned by useFormRequired: every registered key
mapped to its display message and freshly evaluated missing status. -/
def getFormRequired (reg : RequiredHandlers) (getState : StateKey → JSValue)
    (getError : StateKey → Option ErrObj) :
    List (StateKey × RequiredElementMessage) :=
  reg.map (fun p =>
    (p.1, ⟨p.2.displayMessage, p.2.isRequired (getState p.1) (getError p.1)⟩))

/-- anyMissing as returned by useFormRequired: scans every entry of
getFormRequired and reports whether any is missing. -/
def anyMissing (reg : RequiredHandlers) (getState : StateKey → JSValue)
    (getError : StateKey → Option ErrObj) : Bool :=
  (getFormRequired reg getState getError).any (fun p => p.2.isMissing)

/-
Loading store, from use-loading.ts: the set of state keys currently marked
busy, kept as a duplicate-free list mirroring the keyed object.
-/

abbrev FormLoading := List StateKey

def enableLoading (loading : FormLoading) (stateKey : StateKey) : FormLoading :=
  if loading.contains stateKey then loading else loading ++ [stateKey]

def disableLoading (loading : FormLoading) (stateKey : StateKey) : FormLoading :=
  if loading.contains stateKey then loading.filter (fun k => k ≠ stateKey)
  else loading

/-- formLoading of useFormLoading: true when any component is busy. -/
def formLoadingDerived (loading : FormLoading) : Bool :=
  decide (loading.length > 0)

/-
Event assembly, from the Form component's onButtonClick handler.
-/

/-- The state slice of a FormEvent: the spread of the whole reducer state
record, with the derived loading flag, the mounting flag and the initial
state mapping added. -/
structure FormEventState where
  formState : StateMap
  displayState : StateMap
  formMeta : StateMap
  displayMeta : StateMap
  stateChanged : Bool
  formLoading : Bool
  formMounting : Bool
  initialState : String → Option JSValue

structure FormEventErrors where
  formErrors : FormErrors

structure FormEventRequired where
  required : List (StateKey × RequiredElementMessage)
  anyMissing : Bool

/-- The immutable submission snapshot handed to the onButtonClick prop. -/
structure FormEvent where
  id : String
  type : String
  state : FormEventState
  errors : FormEventErrors
  buttonData : ErrObj
  formRequired : FormEventRequired

/-- onButtonClick as provided by the Form component: assembles the FormEvent
snapshot from the state store, the error store, the loading store (combined
with the loading prop), the mounting gate and the required registry. The
required registry reads component state from the display dictionary and the
error from the error store, exactly as the Form component wires
useFormRequired. -/
def onButtonClick (formState : FormState) (formErrors : FormErrors)
    (loadingComponents : FormLoading) (formMounting : Bool)
    (reg : RequiredHandlers) (propsLoading : Bool)
    (propsInitialState : String → Option JSValue)
    (buttonID : String) (buttonData : ErrObj) : FormEvent :=
  let loading := formLoadingDerived loadingComponents || propsLoading
  let getState := fun k => (formState.displayState k).getD JSValue.undef
  let getError := fun k => formErrors k
  { id := buttonID
    type := "buttonClick"
    state :=
      { formState := formState.formState
        displayState := formState.displayState
        formMeta := formState.formMeta
        displayMeta := formState.displayMeta
        stateChanged := formState.stateChanged
        formLoading := loading
        formMounting := formMounting
        initialState := propsInitialState }
    errors := { formErrors := formErrors }
    buttonData := buttonData
    formRequired :=
      { required := getFormRequired reg getState getError
        anyMissing := anyMissing reg getState getError } }

/-
Invariants relating the committed and displayed dictionaries.
-/

/-- Every key present in the committed state dictionary is present in the
display state dictionary, and likewise for the meta dictionaries. -/
def SubsetInv (s : FormState) : Prop :=
  (∀ k, s.formState k ≠ none → s.displayState k ≠ none) ∧
  (∀ k, s.formMeta k ≠ none → s.displayMeta k ≠ none)

/-- The committed and display dictionaries agree pointwise, for state and
for meta. -/
def MirrorInv (s : FormState) : Prop :=
  (∀ k, s.formState k = s.displayState k) ∧
  (∀ k, s.formMeta k = s.displayMeta k)

-- ============================ helper lemmas ============================

theorem mapSet_idem (m : StateMap) (k : StateKey) (v : JSValue) :
    mapSet (mapSet m k v) k v = mapSet m k v := by
  funext j
  by_cases h : j = k <;> simp [mapSet, h]

theorem subsetInv_initial : SubsetInv initialFormState :=
  ⟨fun _ hk => absurd rfl hk, fun _ hk => absurd rfl hk⟩

theorem mirrorInv_initial : MirrorInv initialFormState :=
  ⟨fun _ => rfl, fun _ => rfl⟩

theorem subsetInv_reducer (s : FormState) (a : ReducerAction)
    (h : SubsetInv s) : SubsetInv (reducer s a) := by
  obtain ⟨h1, h2⟩ := h
  cases a with
  | setInitialStateA key v =>
      refine ⟨fun k hk => ?_, h2⟩
      by_cases hkk : k = key <;> simp [reducer, mapSet, hkk] at hk ⊢
      exact h1 k hk
  | setInitialMetaA key v =>
      refine ⟨h1, fun k hk => ?_⟩
      by_cases hkk : k = key <;> simp [reducer, mapSet, hkk] at hk ⊢
      exact h2 k hk
  | setFormStateA key v =>
      refine ⟨fun k hk => ?_, h2⟩
      by_cases hkk : k = key <;> simp [reducer, mapSet, hkk] at hk ⊢
      exact h1 k hk
  | setFormMetaA key v =>
      refine ⟨h1, fun k hk => ?_⟩
      by_cases hkk : k = key <;> simp [reducer, mapSet, hkk] at hk ⊢
      exact h2 k hk
  | removeFormStateA key =>
      exact ⟨fun k hk => hk, h2⟩
  | removeFormMetaA key =>
      exact ⟨h1, fun k hk => hk⟩

theorem subsetInv_applyOp (s : FormState) (op : FormOp)
    (h : SubsetInv s) : SubsetInv (applyOp s op) := by
  cases op with
  | set k st me =>
      show SubsetInv (setFormState s k st me)
      unfold setFormState
      cases hst : truthy st <;> cases hme : truthy me <;>
        simp only [hst, hme, if_true, if_false, Bool.false_eq_true, ite_false, ite_true] <;>
        first
          | exact h
          | exact subsetInv_reducer _ _ h
          | exact subsetInv_reducer _ _ (subsetInv_reducer _ _ h)
  | remove k =>
      exact subsetInv_reducer _ (.removeFormMetaA k)
        (subsetInv_reducer _ (.removeFormStateA k) h)
  | seed k st me =>
      show SubsetInv (seedInitialState s k st me)
      unfold seedInitialState
      cases hst : truthy st <;> cases hme : truthy me <;>
        simp only [hst, hme, if_true, if_false, Bool.false_eq_true, ite_false, ite_true] <;>
        first
          | exact h
          | exact subsetInv_reducer _ _ h
          | exact subsetInv_reducer _ _ (subsetInv_reducer _ _ h)

theorem subsetInv_foldl (ops : List FormOp) :
    ∀ s, SubsetInv s → SubsetInv (ops.foldl applyOp s) := by
  induction ops with
  | nil => exact fun s h => h
  | cons op t ih => exact fun s h => ih _ (subsetInv_applyOp s op h)

theorem mirrorInv_reducer_setState (s : FormState) (k : StateKey) (v : JSValue)
    (h : MirrorInv s) : MirrorInv (reducer s (.setFormStateA k v)) := by
  obtain ⟨h1, h2⟩ := h
  refine ⟨fun j => ?_, h2⟩
  show mapSet s.formState k v j = mapSet s.displayState k v j
  by_cases hjk : j = k <;> simp [mapSet, hjk, h1 j]

theorem mirrorInv_reducer_setMeta (s : FormState) (k : StateKey) (v : JSValue)
    (h : MirrorInv s) : MirrorInv (reducer s (.setFormMetaA k v)) := by
  obtain ⟨h1, h2⟩ := h
  refine ⟨h1, fun j => ?_⟩
  show mapSet s.formMeta k v j = mapSet s.displayMeta k v j
  by_cases hjk : j = k <;> simp [mapSet, hjk, h2 j]

theorem mirrorInv_setFormState (s : FormState) (k : StateKey) (st me : JSValue)
    (h : MirrorInv s) : MirrorInv (setFormState s k st me) := by
  unfold setFormState
  cases hst : truthy st <;> cases hme : truthy me <;>
    simp only [hst, hme, if_true, if_false, Bool.false_eq_true, ite_false, ite_true] <;>
    first
      | exact h
      | exact mirrorInv_reducer_setState s k st h
      | exact mirrorInv_reducer_setMeta s k me h
      | exact mirrorInv_reducer_setMeta _ k me (mirrorInv_reducer_setState s k st h)

theorem mirrorInv_removeFormState (s : FormState) (k : StateKey) :
    MirrorInv (removeFormState s k) :=
  ⟨fun _ => rfl, fun _ => rfl⟩

theorem mirrorInv_foldl (ops : List FormOp) :
    ∀ s, (∀ op ∈ ops, op.isSeed = false) → MirrorInv s →
      MirrorInv (ops.foldl applyOp s) := by
  induction ops with
  | nil => exact fun s _ h => h
  | cons op t ih =>
      intro s hns h
      refine ih _ (fun o ho => hns o (List.mem_cons_of_mem _ ho)) ?_
      cases op with
      | set k st me => exact mirrorInv_setFormState s k st me h
      | remove k => exact mirrorInv_removeFormState s k
      | seed k st me =>
          exact absurd (hns _ (List.mem_cons_self _ _)) (by simp [FormOp.isSeed])

theorem seed_formState (s : FormState) (k : StateKey) (st me : JSValue) :
    (seedInitialState s k st me).formState = s.formState := by
  unfold seedInitialState
  cases hst : truthy st <;> cases hme : truthy me <;>
    simp [hst, hme, reducer]

theorem seed_formMeta (s : FormState) (k : StateKey) (st me : JSValue) :
    (seedInitialState s k st me).formMeta = s.formMeta := by
  unfold seedInitialState
  cases hst : truthy st <;> cases hme : truthy me <;>
    simp [hst, hme, reducer]

theorem seed_stateChanged (s : FormState) (k : StateKey) (st me : JSValue)
    (h : s.stateChanged = false) :
    (seedInitialState s k st me).stateChanged = false := by
  unfold seedInitialState
  cases hst : truthy st <;> cases hme : truthy me <;>
    simp [hst, hme, reducer, h]

theorem seed_idem (s : FormState) (k : StateKey) (st me : JSValue) :
    seedInitialState (seedInitialState s k st me) k st me
      = seedInitialState s k st me := by
  unfold seedInitialState
  cases hst : truthy st <;> cases hme : truthy me <;>
    simp only [hst, hme, if_true, if_false, Bool.false_eq_true, ite_false,
      ite_true, reducer] <;>
    apply FormState.ext <;>
    first
      | rfl
      | apply mapSet_idem

theorem regLookup_append_right (l1 l2 : RequiredHandlers) (k : StateKey)
    (h : regLookup l1 k = none) :
    regLookup (l1 ++ l2) k = regLookup l2 k := by
  induction l1 with
  | nil => rfl
  | cons p t ih =>
      obtain ⟨a, b⟩ := p
      by_cases hk : k = a
      · simp [regLookup, hk] at h
      · simp only [List.cons_append, regLookup, if_neg hk] at h ⊢
        exact ih h

theorem regLookup_map_replace (reg : RequiredHandlers) (k : StateKey)
    (h2 : RequiredHandler) (hl : (regLookup reg k).isSome = true) :
    regLookup (reg.map (fun p => if p.1 = k then (k, h2) else p)) k = some h2 := by
  induction reg with
  | nil => simp [regLookup] at hl
  | cons p t ih =>
      obtain ⟨a, b⟩ := p
      by_cases hak : a = k
      · subst hak
        rw [List.map_cons]
        have h3 : (if (a, b).1 = a then (a, h2) else (a, b)) = (a, h2) := by simp
        rw [h3]
        simp [regLookup]
      · have hka : ¬ k = a := fun hh => hak hh.symm
        simp only [regLookup, if_neg hka] at hl
        rw [List.map_cons]
        have h3 : (if (a, b).1 = k then (k, h2) else (a, b)) = (a, b) := by
          simp [hak]
        rw [h3]
        simp only [regLookup, if_neg hka]
        exact ih hl

theorem regLookup_requiredAdd (reg : RequiredHandlers) (k : StateKey)
    (inp : RequiredHandlerInput) :
    regLookup (requiredAdd reg k inp) k = some (mkHandler k inp) := by
  unfold requiredAdd
  cases hc : (regLookup reg k) with
  | some h0 =>
      have hl : (regLookup reg k).isSome = true := by simp [hc]
      simp only [hc, Option.isSome_some, if_true]
      exact regLookup_map_replace reg k (mkHandler k inp) hl
  | none =>
      simp only [hc, Option.isSome_none, Bool.false_eq_true, if_false]
      rw [regLookup_append_right reg _ k hc]
      simp [regLookup]

-- ============================ claim theorems ============================

/-- C1 counterexample: the claim that removeFormState leaves every other
key's FormState value unchanged fails. Seed key a into DisplayState only, so
FormState has no entry for a; removing the unrelated key b rebuilds
FormState from DisplayState and FormState suddenly contains a. -/
theorem C1_counterexample :
    (seedInitialState initialFormState "a" (JSValue.str "x")
        JSValue.undef).formState "a" = none ∧
    (removeFormState (seedInitialState initialFormState "a" (JSValue.str "x")
        JSValue.undef) "b").formState "a" = some (JSValue.str "x") :=
  ⟨rfl, rfl⟩

/-- C1 amended: removeFormState leaves the removed key absent from both
FormState and DisplayState; every other key's DisplayState value is
unchanged, and its FormState value becomes the prior DisplayState value (in
particular it is unchanged whenever FormState and DisplayState already
agreed at that key, as after any sequence of setFieldState calls). -/
theorem C1_remove_rebuilds (s : FormState) (k j : StateKey) :
    (removeFormState s k).formState k = none ∧
    (removeFormState s k).displayState k = none ∧
    (j ≠ k →
      (removeFormState s k).displayState j = s.displayState j ∧
      (removeFormState s k).formState j = s.displayState j ∧
      (s.formState j = s.displayState j →
        (removeFormState s k).formState j = s.formState j)) := by
  refine ⟨?_, ?_, fun hjk => ⟨?_, ?_, fun hfd => ?_⟩⟩
  · show removeKey s.displayState k k = none
    simp [removeKey]
  · show removeKey s.displayState k k = none
    simp [removeKey]
  · show removeKey s.displayState k j = s.displayState j
    simp [removeKey, hjk]
  · show removeKey s.displayState k j = s.displayState j
    simp [removeKey, hjk]
  · show removeKey s.displayState k j = s.formState j
    simp [removeKey, hjk, hfd]

/-- C1 witness: the amended removal behavior evaluated at a concrete seeded
state and a concrete pair of distinct keys. -/
theorem C1_remove_rebuilds_witness :
    (removeFormState (seedInitialState initialFormState "a" (JSValue.str "x")
        JSValue.undef) "b").formState "a"
      = (seedInitialState initialFormState "a" (JSValue.str "x")
        JSValue.undef).displayState "a" :=
  ((C1_remove_rebuilds (seedInitialState initialFormState "a" (JSValue.str "x")
    JSValue.undef) "b" "a").2.2 (by decide)).2.1

/-- The trace refuting C2: a user edit of key a followed by an initial-state
seed of the same key, which the effect dependency of setInitialState
triggers after a committed write changes. -/
def c2trace : List FormOp :=
  [FormOp.set "a" (JSValue.str "x") JSValue.undef,
   FormOp.seed "a" (JSValue.str "y") JSValue.undef]

/-- C2 counterexample: after an edit of key a followed by a reseed of the
same key, FormState holds the edited value while DisplayState holds the
seeded value, so a key present in FormState is present in DisplayState with
a different value. -/
theorem C2_counterexample :
    (runOps c2trace).formState "a" = some (JSValue.str "x") ∧
    (runOps c2trace).displayState "a" = some (JSValue.str "y") ∧
    ¬ (∀ k v, (runOps c2trace).formState k = some v →
        (runOps c2trace).displayState k = some v) := by
  refine ⟨rfl, rfl, fun h => ?_⟩
  have h1 := h "a" (JSValue.str "x") rfl
  have h2 : (runOps c2trace).displayState "a" = some (JSValue.str "y") := rfl
  rw [h2] at h1
  exact (by decide : some (JSValue.str "y") ≠ some (JSValue.str "x")) h1

/-- C2 amended: in every state reachable by setFormState, removeFormState
and initial-state seeding, every key present in FormState is present in
DisplayState, and likewise for FormMeta in DisplayMeta; when the sequence
contains no seeding operation, FormState and DisplayState (and FormMeta and
DisplayMeta) moreover agree pointwise, hence with the same value. Same-value
agreement can be broken only by a seed overwriting DisplayState after an
edit, as the counterexample shows. -/
theorem C2_subset_invariant (ops : List FormOp) :
    ((∀ k, (runOps ops).formState k ≠ none → (runOps ops).displayState k ≠ none) ∧
     (∀ k, (runOps ops).formMeta k ≠ none → (runOps ops).displayMeta k ≠ none)) ∧
    ((∀ op ∈ ops, op.isSeed = false) →
      (∀ k, (runOps ops).formState k = (runOps ops).displayState k) ∧
      (∀ k, (runOps ops).formMeta k = (runOps ops).displayMeta k)) := by
  constructor
  · exact subsetInv_foldl ops initialFormState subsetInv_initial
  · intro hns
    exact mirrorInv_foldl ops initialFormState hns mirrorInv_initial

/-- C2 witness: the amended invariant evaluated on a concrete seed-free
trace consisting of one user edit. -/
theorem C2_subset_invariant_witness :
    (runOps [FormOp.set "a" (JSValue.str "x") JSValue.undef]).formState "a"
      = (runOps [FormOp.set "a" (JSValue.str "x") JSValue.undef]).displayState "a" :=
  ((C2_subset_invariant [FormOp.set "a" (JSValue.str "x") JSValue.undef]).2
    (by
      intro op hop
      rw [List.mem_singleton] at hop
      subst hop
      rfl)).1 "a"

/-- C3 counterexample: setFormState guards the state write with a JavaScript
truthiness test, not a non-null check, so the defined falsy values 0, false
and the empty string are not written and stateChanged stays false. -/
theorem C3_counterexample :
    (setFormState initialFormState "a" (JSValue.num 0)
        JSValue.undef).formState "a" = none ∧
    (setFormState initialFormState "a" (JSValue.boolean false)
        JSValue.undef).formState "a" = none ∧
    (setFormState initialFormState "a" (JSValue.str "")
        JSValue.undef).formState "a" = none ∧
    (setFormState initialFormState "a" (JSValue.num 0)
        JSValue.undef).stateChanged = false :=
  ⟨rfl, rfl, rfl, rfl⟩

/-- C3 amended: for every truthy state value, setFormState writes the value
into both FormState and DisplayState at the key and sets stateChanged to
true; falsy values, including the defined values 0, false and the empty
string, are silently ignored. -/
theorem C3_set_truthy_writes (s : FormState) (k : StateKey) (v m : JSValue)
    (h : truthy v = true) :
    (setFormState s k v m).formState k = some v ∧
    (setFormState s k v m).displayState k = some v ∧
    (setFormState s k v m).stateChanged = true := by
  unfold setFormState
  simp only [h, if_true, ite_true]
  cases hm : truthy m <;> simp [reducer, mapSet]

/-- C3 witness: the amended write behavior evaluated at a concrete truthy
string value. -/
theorem C3_set_truthy_writes_witness :
    (setFormState initialFormState "a" (JSValue.str "x")
        JSValue.undef).formState "a" = some (JSValue.str "x") :=
  (C3_set_truthy_writes initialFormState "a" (JSValue.str "x") JSValue.undef
    (by decide)).1

/-- C4: seeding is idempotent. Applying the initial-state setter twice with
the same key and projected values equals applying it once, stateChanged
stays false, and under the render model with no intervening writes the
seeding effect of a freshly mounted binding fires at the first render and
not at the second, because its dependency, the committed state at the key,
is unchanged. -/
theorem C4_seeding_idempotent (s : FormState) (k : StateKey) (st me : JSValue)
    (h : s.stateChanged = false) :
    seedInitialState (seedInitialState s k st me) k st me
      = seedInitialState s k st me ∧
    (seedInitialState s k st me).stateChanged = false ∧
    (renderSeed ((renderSeed s (SeedBinding.mk none) k st me).1)
        ((renderSeed s (SeedBinding.mk none) k st me).2) k st me).1
      = (renderSeed s (SeedBinding.mk none) k st me).1 ∧
    effectFires ((renderSeed s (SeedBinding.mk none) k st me).2)
      (((renderSeed s (SeedBinding.mk none) k st me).1).formState k) = false := by
  refine ⟨seed_idem s k st me, seed_stateChanged s k st me h, ?_, ?_⟩
  · show (renderSeed (seedInitialState s k st me)
        (SeedBinding.mk (some (s.formState k))) k st me).1
      = seedInitialState s k st me
    unfold renderSeed
    rw [seed_formState]
    simp [effectFires]
  · show effectFires (SeedBinding.mk (some (s.formState k)))
      ((seedInitialState s k st me).formState k) = false
    rw [seed_formState]
    simp [effectFires]

/-- C4 witness: seeding idempotence evaluated at the initial state with a
concrete key and value. -/
theorem C4_seeding_idempotent_witness :
    seedInitialState (seedInitialState initialFormState "a" (JSValue.str "x")
        JSValue.undef) "a" (JSValue.str "x") JSValue.undef
      = seedInitialState initialFormState "a" (JSValue.str "x") JSValue.undef :=
  (C4_seeding_idempotent initialFormState "a" (JSValue.str "x") JSValue.undef
    rfl).1

/-- The concrete snapshot of C5: one committed edit of key a to the string
x, no errors, no required handlers, loading disabled, mounting settled, and
a dispatch with the default button id and empty button data. -/
def c5event : FormEvent :=
  onButtonClick (setFormState initialFormState "a" (JSValue.str "x") JSValue.undef)
    emptyFormErrors [] false [] false (fun _ => none) "submit" emptyErrObj

/-- C5: the dispatched FormEvent has id submit, type buttonClick, a
state.formState containing exactly the binding of a to x, stateChanged true,
no missing required fields, empty form errors, and loading and mounting
flags false. -/
theorem C5_snapshot_consistency :
    c5event.id = "submit" ∧
    c5event.type = "buttonClick" ∧
    (∀ j, c5event.state.formState j
      = if j = "a" then some (JSValue.str "x") else none) ∧
    c5event.state.stateChanged = true ∧
    c5event.formRequired.anyMissing = false ∧
    (∀ j, c5event.errors.formErrors j = none) ∧
    c5event.state.formLoading = false ∧
    c5event.state.formMounting = false :=
  ⟨rfl, rfl, fun _ => rfl, rfl, rfl, fun _ => rfl, rfl, rfl⟩

/-- C6: for a key with no registered required handler, isMissing returns
false; after registering the empty handler for the key, isMissing equals the
negation of the truthiness of the key's current state, re-evaluated against
whatever state and error accessors are supplied at the call. -/
theorem C6_required_default (reg : RequiredHandlers)
    (getState : StateKey → JSValue) (getError : StateKey → Option ErrObj)
    (k : StateKey) (h : regLookup reg k = none) :
    isMissing reg getState getError k = false ∧
    (∀ (gs : StateKey → JSValue) (ge : StateKey → Option ErrObj),
      isMissing (requiredAdd reg k emptyRequiredInput) gs ge k
        = !truthy (gs k)) := by
  constructor
  · unfold isMissing
    rw [h]
  · intro gs ge
    unfold isMissing
    rw [regLookup_requiredAdd]
    rfl

/-- C6 witness: the default required behavior evaluated at the empty
registry and a concrete key. -/
theorem C6_required_default_witness :
    isMissing [] (fun _ => JSValue.undef) (fun _ => none) "a" = false :=
  (C6_required_default [] (fun _ => JSValue.undef) (fun _ => none) "a" rfl).1

/-- The error payload refuting C7: it supplies its own displayError whose
value happens to equal the default template string for key a. -/
def c7err : ErrObj :=
  fun f => if f = "displayError" then some (JSValue.str "a Error") else none

/-- C7 counterexample: the stored displayError equals the default template
string even though the payload supplied its own displayError, refuting the
claimed exactly-when equivalence. -/
theorem C7_counterexample :
    (setFormError emptyFormErrors "a" c7err "a").map (fun o => o "displayError")
      = some (some (JSValue.str "a Error")) ∧
    c7err "displayError" = some (JSValue.str "a Error") ∧
    ("a" : String) ++ " Error" = "a Error" :=
  ⟨rfl, rfl, rfl⟩

/-- C7 amended: setFormError stores at the key the merge of the payload over
the default template: the stored entry contains every field of the payload,
its displayError is the payload's when the payload supplies one and the
string built from the key followed by Error otherwise (the two can
coincide), and every other key of the error store is unchanged. -/
theorem C7_error_merge (errors : FormErrors) (k : StateKey) (e : ErrObj)
    (f : String) :
    setFormError errors k e k = some (mergedError k e) ∧
    (∀ j, j ≠ k → setFormError errors k e j = errors j) ∧
    mergedError k e f
      = (if (e f).isSome then e f
         else if f = "displayError" then some (JSValue.str (k ++ " Error"))
         else none) := by
  refine ⟨?_, fun j hjk => ?_, ?_⟩
  · simp [setFormError]
  · simp [setFormError, hjk]
  · cases hef : e f <;> simp [mergedError, hef]

/-- C7 witness: the merge behavior evaluated at the empty error store, a
concrete key and the empty payload, showing the other-keys frame condition
at a distinct key. -/
theorem C7_error_merge_witness :
    setFormError emptyFormErrors "a" emptyErrObj "b" = emptyFormErrors "b" :=
  (C7_error_merge emptyFormErrors "a" emptyErrObj "x").2.1 "b" (by decide)

/-- C8: the state and meta halves of setFormState are independent writes:
passing undefined meta leaves both meta dictionaries untouched, and passing
undefined state leaves both state dictionaries untouched. -/
theorem C8_state_meta_independence (s : FormState) (k : StateKey)
    (v m : JSValue) :
    ((setFormState s k v JSValue.undef).formMeta = s.formMeta ∧
     (setFormState s k v JSValue.undef).displayMeta = s.displayMeta) ∧
    ((setFormState s k JSValue.undef m).formState = s.formState ∧
     (setFormState s k JSValue.undef m).displayState = s.displayState) := by
  refine ⟨⟨?_, ?_⟩, ?_, ?_⟩
  · show (if truthy v then reducer s (.setFormStateA k v) else s).formMeta
      = s.formMeta
    cases hv : truthy v <;> rfl
  · show (if truthy v then reducer s (.setFormStateA k v) else s).displayMeta
      = s.displayMeta
    cases hv : truthy v <;> rfl
  · show (if truthy m then reducer s (.setFormMetaA k m) else s).formState
      = s.formState
    cases hm : truthy m <;> rfl
  · show (if truthy m then reducer s (.setFormMetaA k m) else s).displayState
      = s.displayState
    cases hm : truthy m <;> rfl

/-- C9: removeFormState sets stateChanged to true from every prior state,
including states in which the removed key was absent from both FormState and
DisplayState. -/
theorem C9_remove_marks_changed (s : FormState) (k : StateKey) :
    (removeFormState s k).stateChanged = true := rfl

/-- C10: after removeFormState, the FormState dictionary equals the
DisplayState dictionary pointwise: every key other than the removed one
carries the prior DisplayState value in FormState, and the removed key is
absent, because both dictionaries are rebuilt from the prior DisplayState
keys into one shared accumulator. -/
theorem C10_remove_equates_form_and_display (s : FormState) (k j : StateKey) :
    (removeFormState s k).formState j = (removeFormState s k).displayState j ∧
    (j ≠ k → (removeFormState s k).formState j = s.displayState j) ∧
    (removeFormState s k).formState k = none := by
  refine ⟨rfl, fun hjk => ?_, ?_⟩
  · show removeKey s.displayState k j = s.displayState j
    simp [removeKey, hjk]
  · show removeKey s.displayState k k = none
    simp [removeKey]

/-- C10 witness: the rebuild-from-display behavior evaluated at a concrete
state where key b was seeded into DisplayState only and key a is removed. -/
theorem C10_remove_equates_witness :
    (removeFormState (seedInitialState initialFormState "b" (JSValue.str "y")
        JSValue.undef) "a").formState "b"
      = (seedInitialState initialFormState "b" (JSValue.str "y")
        JSValue.undef).displayState "b" :=
  (C10_remove_equates_form_and_display
    (seedInitialState initialFormState "b" (JSValue.str "y") JSValue.undef)
    "a" "b").2.1 (by decide)

end ReactDeclareForm
